import Mathlib

/-!
Verification development for the `py-gnverifier` client library.

The Python sources are shallowly embedded: JSON values become an inductive
`JValue`, Python dictionaries become association lists `JObj`, `dict.get`
with a default becomes `jget`, and fallible constructions (Python code that
can raise `KeyError`/`TypeError`) return `Option`/`Except`.
-/

/-- JSON values as handled by the client (numbers modelled as rationals,
which covers both Python ints and floats appearing in the payloads). -/
inductive JValue where
  | null : JValue
  | bool (b : Bool) : JValue
  | num (q : ℚ) : JValue
  | str (s : String) : JValue
  | arr (elems : List JValue) : JValue
  | obj (fields : List (String × JValue)) : JValue

/-- A JSON object / Python dict: an association list of key-value pairs. -/
abbrev JObj := List (String × JValue)

/-- Association lookup: the value bound to the first occurrence of `key`,
mirroring Python `d[key]` / `d.get(key)` membership semantics. -/
def jlookup : JObj → String → Option JValue
  | [], _ => none
  | (k, v) :: rest, key => if k = key then some v else jlookup rest key

/-- Python `d.get(key, default)`. -/
def jget (d : JObj) (key : String) (default : JValue) : JValue :=
  (jlookup d key).getD default

theorem jlookup_nil (key : String) : jlookup [] key = none := rfl

theorem jlookup_cons (k : String) (v : JValue) (rest : JObj) (key : String) :
    jlookup ((k, v) :: rest) key = if k = key then some v else jlookup rest key := rfl

theorem jget_of_lookup_some {d : JObj} {key : String} {v : JValue} (default : JValue)
    (h : jlookup d key = some v) : jget d key default = v := by
  simp [jget, h]

theorem jget_of_lookup_none {d : JObj} {key : String} (default : JValue)
    (h : jlookup d key = none) : jget d key default = default := by
  simp [jget, h]

/-- A key is a key of the object iff the lookup succeeds. -/
theorem jlookup_isSome_iff_mem_keys (d : JObj) (key : String) :
    (jlookup d key).isSome = true ↔ key ∈ d.map Prod.fst := by
  induction d with
  | nil => simp [jlookup]
  | cons p rest ih =>
    obtain ⟨k, v⟩ := p
    by_cases hk : k = key
    · subst hk; simp [jlookup]
    · simp [jlookup, hk, ih, Ne.symm hk]

/-- Extensional equality of JSON objects: equal lookups at every key.
This is the equality Python's `==` induces on dicts. -/
def JObjEquiv (a b : JObj) : Prop := ∀ key : String, jlookup a key = jlookup b key

/-! ### `Metadata` (src/pygnverifier/verification.py, lines 166-208)

Each attribute stores whatever JSON value the payload carried for its key,
with the source's per-key default when the key is absent. -/

structure Metadata where
  names_number : JValue
  with_stats : JValue
  data_sources : JValue
  main_taxon_threshold : JValue
  stats_names_num : JValue
  main_taxon : JValue
  main_taxon_percentage : JValue
  kingdom : JValue
  kingdom_percentage : JValue
  kingdoms : JValue

/-- `Metadata.__init__`: every field is read with `data.get(key, default)`. -/
def Metadata.ofJson (data : JObj) : Metadata where
  names_number := jget data "namesNumber" (JValue.num 0)
  with_stats := jget data "withStats" (JValue.bool false)
  data_sources := jget data "dataSources" (JValue.arr [])
  main_taxon_threshold := jget data "mainTaxonThreshold" (JValue.num 0)
  stats_names_num := jget data "statsNamesNum" (JValue.num 0)
  main_taxon := jget data "mainTaxon" (JValue.str "N/A")
  main_taxon_percentage := jget data "mainTaxonPercentage" (JValue.num 0)
  kingdom := jget data "kingdom" (JValue.str "N/A")
  kingdom_percentage := jget data "kingdomPercentage" (JValue.num 0)
  kingdoms := jget data "kingdoms" (JValue.arr [])

/-- `Metadata.to_dict`. -/
def Metadata.to_dict (m : Metadata) : JObj :=
  [ ("namesNumber", m.names_number),
    ("withStats", m.with_stats),
    ("dataSources", m.data_sources),
    ("mainTaxonThreshold", m.main_taxon_threshold),
    ("statsNamesNum", m.stats_names_num),
    ("mainTaxon", m.main_taxon),
    ("mainTaxonPercentage", m.main_taxon_percentage),
    ("kingdom", m.kingdom),
    ("kingdomPercentage", m.kingdom_percentage),
    ("kingdoms", m.kingdoms) ]

/-- The ten keys `Metadata.__init__` reads and `Metadata.to_dict` emits. -/
def metadataKeys : List String :=
  [ "namesNumber", "withStats", "dataSources", "mainTaxonThreshold",
    "statsNamesNum", "mainTaxon", "mainTaxonPercentage", "kingdom",
    "kingdomPercentage", "kingdoms" ]

/-- The source's default for each metadata key. -/
def metadataDefault : String → JValue
  | "namesNumber" => JValue.num 0
  | "withStats" => JValue.bool false
  | "dataSources" => JValue.arr []
  | "mainTaxonThreshold" => JValue.num 0
  | "statsNamesNum" => JValue.num 0
  | "mainTaxon" => JValue.str "N/A"
  | "mainTaxonPercentage" => JValue.num 0
  | "kingdom" => JValue.str "N/A"
  | "kingdomPercentage" => JValue.num 0
  | "kingdoms" => JValue.arr []
  | _ => JValue.null

/-! ### `NameResult` (src/pygnverifier/verification.py, lines 211-294)

`NameResult.__init__` reads three top-level keys, then takes
`best_result = data.get("bestResult", {})` and reads twenty-seven keys from
it.  In Python, a `"bestResult"` value that is not a dict makes the
subsequent `.get` calls raise; the embedding returns `none` there. -/

structure NameResult where
  input_name : JValue
  cardinality : JValue
  match_type : JValue
  data_source_id : JValue
  data_source_title : JValue
  curation : JValue
  record_id : JValue
  outlink : JValue
  entry_date : JValue
  sort_score : JValue
  matched_name_id : JValue
  matched_name : JValue
  matched_cardinality : JValue
  matched_canonical_simple : JValue
  matched_canonical_full : JValue
  current_record_id : JValue
  current_name_id : JValue
  current_name : JValue
  current_cardinality : JValue
  current_canonical_simple : JValue
  current_canonical_full : JValue
  taxonomic_status : JValue
  is_synonym : JValue
  classification_path : JValue
  classification_ranks : JValue
  classification_ids : JValue
  edit_distance : JValue
  stem_edit_distance : JValue
  match_type_detail : JValue
  score_details : JValue

/-- The body of `NameResult.__init__` once `best_result` has been
extracted: `data` is the whole record, `br` the `bestResult` fields. -/
def NameResult.build (data br : JObj) : NameResult where
  input_name := jget data "name" (JValue.str "N/A")
  cardinality := jget data "cardinality" (JValue.num 0)
  match_type := jget data "matchType" (JValue.str "N/A")
  data_source_id := jget br "dataSourceId" (JValue.str "N/A")
  data_source_title := jget br "dataSourceTitleShort" (JValue.str "N/A")
  curation := jget br "curation" (JValue.str "N/A")
  record_id := jget br "recordId" (JValue.str "N/A")
  outlink := jget br "outlink" (JValue.str "N/A")
  entry_date := jget br "entryDate" (JValue.str "N/A")
  sort_score := jget br "sortScore" (JValue.num 0)
  matched_name_id := jget br "matchedNameID" (JValue.str "N/A")
  matched_name := jget br "matchedName" (JValue.str "N/A")
  matched_cardinality := jget br "matchedCardinality" (JValue.num 0)
  matched_canonical_simple := jget br "matchedCanonicalSimple" (JValue.str "N/A")
  matched_canonical_full := jget br "matchedCanonicalFull" (JValue.str "N/A")
  current_record_id := jget br "currentRecordId" (JValue.str "N/A")
  current_name_id := jget br "currentNameId" (JValue.str "N/A")
  current_name := jget br "currentName" (JValue.str "N/A")
  current_cardinality := jget br "currentCardinality" (JValue.num 0)
  current_canonical_simple := jget br "currentCanonicalSimple" (JValue.str "N/A")
  current_canonical_full := jget br "currentCanonicalFull" (JValue.str "N/A")
  taxonomic_status := jget br "taxonomicStatus" (JValue.str "N/A")
  is_synonym := jget br "isSynonym" (JValue.bool false)
  classification_path := jget br "classificationPath" (JValue.str "N/A")
  classification_ranks := jget br "classificationRanks" (JValue.str "N/A")
  classification_ids := jget br "classificationIds" (JValue.str "N/A")
  edit_distance := jget br "editDistance" (JValue.num 0)
  stem_edit_distance := jget br "stemEditDistance" (JValue.num 0)
  match_type_detail := jget br "matchType" (JValue.str "N/A")
  score_details := jget br "scoreDetails" (JValue.obj [])

/-- `NameResult.__init__`: fails (raises) when `"bestResult"` is present but
not an object, otherwise builds from the record and the best-result fields. -/
def NameResult.ofJson (data : JObj) : Option NameResult :=
  match jget data "bestResult" (JValue.obj []) with
  | JValue.obj br => some (NameResult.build data br)
  | _ => none

/-- `NameResult.to_dict`. -/
def NameResult.to_dict (n : NameResult) : JObj :=
  [ ("inputName", n.input_name),
    ("cardinality", n.cardinality),
    ("matchType", n.match_type),
    ("bestResult", JValue.obj
      [ ("dataSourceId", n.data_source_id),
        ("dataSourceTitleShort", n.data_source_title),
        ("curation", n.curation),
        ("recordId", n.record_id),
        ("outlink", n.outlink),
        ("entryDate", n.entry_date),
        ("sortScore", n.sort_score),
        ("matchedNameID", n.matched_name_id),
        ("matchedName", n.matched_name),
        ("matchedCardinality", n.matched_cardinality),
        ("matchedCanonicalSimple", n.matched_canonical_simple),
        ("matchedCanonicalFull", n.matched_canonical_full),
        ("currentRecordId", n.current_record_id),
        ("currentNameId", n.current_name_id),
        ("currentName", n.current_name),
        ("currentCardinality", n.current_cardinality),
        ("currentCanonicalSimple", n.current_canonical_simple),
        ("currentCanonicalFull", n.current_canonical_full),
        ("taxonomicStatus", n.taxonomic_status),
        ("isSynonym", n.is_synonym),
        ("classificationPath", n.classification_path),
        ("classificationRanks", n.classification_ranks),
        ("classificationIds", n.classification_ids),
        ("editDistance", n.edit_distance),
        ("stemEditDistance", n.stem_edit_distance),
        ("matchType", n.match_type_detail),
        ("scoreDetails", n.score_details) ]) ]

/-- The keys of the `bestResult` sub-dictionary emitted by
`NameResult.to_dict`, in emission order. -/
def bestResultKeys : List String :=
  [ "dataSourceId", "dataSourceTitleShort", "curation", "recordId", "outlink",
    "entryDate", "sortScore", "matchedNameID", "matchedName",
    "matchedCardinality", "matchedCanonicalSimple", "matchedCanonicalFull",
    "currentRecordId", "currentNameId", "currentName", "currentCardinality",
    "currentCanonicalSimple", "currentCanonicalFull", "taxonomicStatus",
    "isSynonym", "classificationPath", "classificationRanks",
    "classificationIds", "editDistance", "stemEditDistance", "matchType",
    "scoreDetails" ]

/-- The source's default for each `bestResult` key. -/
def bestResultDefault : String → JValue
  | "sortScore" => JValue.num 0
  | "matchedCardinality" => JValue.num 0
  | "currentCardinality" => JValue.num 0
  | "isSynonym" => JValue.bool false
  | "editDistance" => JValue.num 0
  | "stemEditDistance" => JValue.num 0
  | "scoreDetails" => JValue.obj []
  | _ => JValue.str "N/A"

/-- The key list of the `bestResult` sub-dictionary of a `to_dict` output,
when that sub-dictionary exists. -/
def bestKeysOf (d : JObj) : Option (List String) :=
  match jlookup d "bestResult" with
  | some (JValue.obj fields) => some (fields.map Prod.fst)
  | _ => none

/-! ### `GNVerifierResponse` and `GNVerifier.verify`
(src/pygnverifier/verification.py, lines 72-163) -/

structure GNVerifierResponse where
  metadata : Metadata
  names : List NameResult

/-- `GNVerifierResponse.__init__`: `Metadata(data.get("metadata", {}))` and
`[NameResult(nd) for nd in data.get("names", [])]`; a non-dict metadata
value or a non-dict element of `names` raises, hence `none`. -/
def GNVerifierResponse.ofJson (data : JObj) : Option GNVerifierResponse :=
  match jget data "metadata" (JValue.obj []) with
  | JValue.obj md =>
    match jget data "names" (JValue.arr []) with
    | JValue.arr items =>
      (items.mapM fun item =>
        match item with
        | JValue.obj fields => NameResult.ofJson fields
        | _ => none).map
        fun ns => { metadata := Metadata.ofJson md, names := ns }
    | _ => none
  | _ => none

/-- The response `GNVerifier.verify` returns on failure:
`GNVerifierResponse({})`. -/
def emptyResponse : GNVerifierResponse :=
  { metadata := Metadata.ofJson [], names := [] }

/-- Outcome of the `_post` call inside `GNVerifier.verify`, as seen by the
surrounding `try`/`except`: a parsed JSON body, an `HTTPError`, or any
other exception. -/
inductive PostOutcome where
  | success (body : JObj) : PostOutcome
  | httpError (msg : String) : PostOutcome
  | otherFailure (msg : String) : PostOutcome

/-- `GNVerifier.verify` (lines 97-115): the first component records whether
a warning was emitted.  Both `except` arms fall through to
`return GNVerifierResponse({})`; a response body on which
`GNVerifierResponse(...)` itself raises is caught by `except Exception`. -/
def GNVerifier.verify : PostOutcome → Bool × GNVerifierResponse
  | PostOutcome.success body =>
    match GNVerifierResponse.ofJson body with
    | some r => (false, r)
    | none => (true, emptyResponse)
  | PostOutcome.httpError _ => (true, emptyResponse)
  | PostOutcome.otherFailure _ => (true, emptyResponse)

/-! ### `DataSource` and `DataSourceClient.get_data_sources`
(src/pygnverifier/data_sources.py, lines 15-138) -/

structure DataSource where
  datasource_id : JValue
  uuid : JValue
  title : JValue
  title_short : JValue
  version : JValue
  description : JValue
  home_url : JValue
  is_outlink_ready : JValue
  has_taxon_data : JValue
  curation : JValue
  record_count : JValue
  updated_at : JValue

/-- One element of the `get_data_sources` comprehension: `ds["id"]` is a
bare subscript (raises `KeyError` when absent), every other field uses
`ds.get(key, default)`. -/
def DataSource.ofJson (ds : JObj) : Option DataSource :=
  match jlookup ds "id" with
  | none => none
  | some idv => some
    { datasource_id := idv
      uuid := jget ds "uuid" (JValue.str "N/A")
      title := jget ds "title" (JValue.str "N/A")
      title_short := jget ds "titleShort" (JValue.str "N/A")
      version := jget ds "version" (JValue.str "N/A")
      description := jget ds "description" (JValue.str "No description available")
      home_url := jget ds "homeURL" (JValue.str "N/A")
      is_outlink_ready := jget ds "isOutlinkReady" (JValue.bool false)
      curation := jget ds "curation" (JValue.str "Unknown")
      has_taxon_data := jget ds "hasTaxonData" (JValue.bool false)
      record_count := jget ds "recordCount" (JValue.num 0)
      updated_at := jget ds "updatedAt" (JValue.str "N/A") }

/-- A transport-level error surfaced by `BaseAPI._get`: either a
`requests` exception or the `HTTPError` raised by `raise_for_status`
on an error status. -/
inductive TransportError where
  | requestException (msg : String) : TransportError
  | httpStatusError (code : Nat) : TransportError

/-- The outcome of the underlying `requests.get` + `raise_for_status`
sequence inside `BaseAPI._get`: a parsed JSON body, or a raised
transport error. -/
inductive GetOutcome where
  | success (body : JValue) : GetOutcome
  | failure (err : TransportError) : GetOutcome

/-- `BaseAPI._get` (src/pygnverifier/base_api.py, lines 47-58): no
exception handler, so a raised transport error propagates; a successful
response yields its parsed JSON body. -/
def BaseAPI.get_endpoint : GetOutcome → Except TransportError JValue
  | GetOutcome.success body => Except.ok body
  | GetOutcome.failure err => Except.error err

/-- An error escaping `DataSourceClient.get_data_sources`: the propagated
transport error, or a parse error raised by the comprehension itself
(`KeyError` on a record without `"id"`, or iterating a non-list body). -/
inductive DataSourcesError where
  | transport (err : TransportError) : DataSourcesError
  | parseFailure : DataSourcesError

/-- `DataSourceClient.get_data_sources` (lines 110-138): calls `_get`,
then builds one `DataSource` per record of the returned array.  There is
no `try`/`except`: every error raised below it propagates. -/
def DataSourceClient.get_data_sources (outcome : GetOutcome) :
    Except DataSourcesError (List DataSource) :=
  match BaseAPI.get_endpoint outcome with
  | Except.error err => Except.error (DataSourcesError.transport err)
  | Except.ok body =>
    match body with
    | JValue.arr records =>
      match records.mapM fun r =>
          match r with
          | JValue.obj fields => DataSource.ofJson fields
          | _ => none with
      | some sources => Except.ok sources
      | none => Except.error DataSourcesError.parseFailure
    | _ => Except.error DataSourcesError.parseFailure

/-! ### The rate limiter `BaseAPI._auto_sleep`
(src/pygnverifier/base_api.py, lines 17-41)

Timestamps are rationals measured in seconds, like Python's `time()`
floats; `SLEEP_TIME = 0.500` seconds, i.e. 500 ms.  The persisted
metadata store is an `Option`: `none` models the `FileNotFoundError`
branch, which substitutes `{"last_request": 0}`. -/

def SLEEP_TIME : ℚ := 1 / 2

/-- The `last_request` value `_auto_sleep` works with after loading the
store: 0 when the metadata file does not exist. -/
def loadLastRequest (store : Option ℚ) : ℚ := store.getD 0

/-- `BaseAPI._auto_sleep`, given the persisted store and the current clock
value `now`.  Returns `(slept, recorded)`: the duration slept and the new
`last_request` value written back (the clock is read again after
sleeping, so it is `now + slept`). -/
def BaseAPI.auto_sleep (store : Option ℚ) (now : ℚ) : ℚ × ℚ :=
  let last := loadLastRequest store
  let elapsed := now - last
  let slept := if elapsed < SLEEP_TIME then SLEEP_TIME - elapsed else 0
  (slept, now + slept)

/-! ### The request-configuration builder

`VerificationRequestConfiguration` is imported by `cli.py` and
`__init__.py` but its definition is not among the source files; only its
callers and the exception classes it raises (`InvalidTaxonThresholdError`,
`UnknownDataSourceError` in src/pygnverifier/exceptions.py) are present.
The definitions below are therefore modelled from the spec. -/

/-- Modelled from the spec: one entry of the data-source catalog as the
builder consults it, with its two titles and the two derived normalized
argument names ("lower-cased, hyphenated form of the title"). -/
structure CatalogEntry where
  entry_id : Int
  title : String
  titleShort : String
deriving DecidableEq

/-- Modelled from the spec: the normalized argument-name form of a title,
its lower-cased, hyphenated form. -/
def normalizeArgName (s : String) : String :=
  String.mk (s.data.map fun c => if c = ' ' then '-' else c.toLower)

/-- Modelled from the spec: the four accepted identifier forms of a
catalog entry — full title, short title, normalized argument name,
normalized short argument name. -/
def nameForms (e : CatalogEntry) : List String :=
  [e.title, e.titleShort, normalizeArgName e.title, normalizeArgName e.titleShort]

/-- Whether an identifier matches one of the four accepted forms of a
catalog entry. -/
def matchesEntry (ident : String) (e : CatalogEntry) : Bool :=
  decide (ident ∈ nameForms e)

/-- Modelled from the spec: the configuration errors raised by the builder
(`InvalidTaxonThresholdError`, `UnknownDataSourceError` of
src/pygnverifier/exceptions.py); the unknown-data-source error carries
every known title as its recoverable-information payload. -/
inductive ConfigError where
  | invalidTaxonThreshold (t : ℚ) : ConfigError
  | unknownDataSource (ident : String) (availableTitles : List String) : ConfigError

/-- Modelled from the spec: `VerificationRequestConfiguration`, the
builder accumulating selected data-source IDs and option fields, holding
the catalog fetched once at construction. -/
structure VerificationRequestConfiguration where
  email : String
  catalog : List CatalogEntry
  dataSources : List Int
  allMatches : Bool
  capitalization : Bool
  speciesGroup : Bool
  uninomialFuzzyMatch : Bool
  stats : Bool
  mainTaxonThreshold : ℚ

/-- Modelled from the spec: `set_main_taxon_threshold` validates the range
at the point of assignment and fails with the `InvalidTaxonThreshold`
condition outside `[0, 1]` inclusive. -/
def set_main_taxon_threshold (c : VerificationRequestConfiguration) (t : ℚ) :
    Except ConfigError VerificationRequestConfiguration :=
  if 0 ≤ t ∧ t ≤ 1 then
    Except.ok { c with mainTaxonThreshold := t }
  else
    Except.error (ConfigError.invalidTaxonThreshold t)

/-- Modelled from the spec: `include_data_source` performs a linear scan
over the previously-fetched catalog, accepting any of the four identifier
forms; on first match it appends the entry's numeric ID to the selection
set, and with no match it fails with the `UnknownDataSource` condition
enumerating every known title. -/
def include_data_source (c : VerificationRequestConfiguration) (ident : String) :
    Except ConfigError VerificationRequestConfiguration :=
  match c.catalog.find? (fun e => matchesEntry ident e) with
  | some e => Except.ok { c with dataSources := c.dataSources ++ [e.entry_id] }
  | none =>
    Except.error (ConfigError.unknownDataSource ident (c.catalog.map CatalogEntry.title))

/-! ### Classification parsing

The spec describes the `BestResult`/`Classification` model splitting the
three parallel pipe-delimited strings and zipping them position-wise;
that model is not among the source files (`verification.py` stores the
three strings verbatim), so the parsing is modelled from the spec. -/

/-- Splitting a character list at pipe characters; an empty input denotes
one empty segment, matching Python `str.split("|")`. -/
def splitPipesAux : List Char → List (List Char)
  | [] => [[]]
  | c :: rest =>
    match splitPipesAux rest with
    | [] => [[]]
    | seg :: segs => if c = '|' then [] :: seg :: segs else (c :: seg) :: segs

/-- Splitting one pipe-delimited classification string, as Python
`s.split("|")` does. -/
def splitPipes (s : String) : List String :=
  (splitPipesAux s.data).map fun cs => String.mk cs

/-- Modelled from the spec: the three parallel pipe-delimited strings are
split into three equal-length ordered sequences and zipped position-wise
into rank-name-id triples. -/
def parseClassification (path ranks ids : String) : List (String × String × String) :=
  (splitPipes ranks).zip ((splitPipes path).zip (splitPipes ids))

/-- The fields of the `bestResult` sub-dictionary of a `to_dict` output. -/
def bestFieldsOf (n : NameResult) : JObj :=
  match jlookup (NameResult.to_dict n) "bestResult" with
  | some (JValue.obj fields) => fields
  | _ => []

/-- The dictionary shape `GNVerifierResponse.export_as_json` serializes
(src/pygnverifier/verification.py, lines 156-158). -/
def GNVerifierResponse.export_dict (r : GNVerifierResponse) : JObj :=
  [ ("metadata", JValue.obj (Metadata.to_dict r.metadata)),
    ("names", JValue.arr (r.names.map fun n => JValue.obj (NameResult.to_dict n))) ]

/-- A concrete builder state used to instantiate the configuration
theorems. -/
def sampleConfig : VerificationRequestConfiguration :=
  { email := "user@example.org"
    catalog := []
    dataSources := []
    allMatches := false
    capitalization := false
    speciesGroup := false
    uninomialFuzzyMatch := false
    stats := false
    mainTaxonThreshold := 3 / 5 }

/-- A concrete catalog entry for the resolution theorem. -/
def colEntry : CatalogEntry :=
  { entry_id := 1, title := "Catalogue of Life", titleShort := "COL" }

/-- A second concrete catalog entry. -/
def eolEntry : CatalogEntry :=
  { entry_id := 12, title := "Encyclopedia of Life", titleShort := "EOL" }

/-- A builder state holding a two-entry catalog. -/
def catalogConfig : VerificationRequestConfiguration :=
  { sampleConfig with catalog := [colEntry, eolEntry] }

/-- A fully-populated metadata record, used to instantiate the round-trip
theorems. -/
def sampleMetadataJson : JObj :=
  [ ("namesNumber", JValue.num 3),
    ("withStats", JValue.bool true),
    ("dataSources", JValue.arr [JValue.num 1]),
    ("mainTaxonThreshold", JValue.num (3 / 5)),
    ("statsNamesNum", JValue.num 2),
    ("mainTaxon", JValue.str "Animalia"),
    ("mainTaxonPercentage", JValue.num (1 / 2)),
    ("kingdom", JValue.str "Animalia"),
    ("kingdomPercentage", JValue.num (9 / 10)),
    ("kingdoms", JValue.arr []) ]

/-! ## Theorems -/

/-- C1: for every threshold value t, constructing a verification request
configuration with main taxon threshold t outside the closed interval
[0,1] fails immediately at the point of assignment with the
InvalidTaxonThreshold error, and constructing it with t inside [0,1]
(including both endpoints) succeeds. -/
theorem claim_C1_threshold_validation (c : VerificationRequestConfiguration) (t : ℚ) :
    (¬ (0 ≤ t ∧ t ≤ 1) →
      set_main_taxon_threshold c t = Except.error (ConfigError.invalidTaxonThreshold t)) ∧
    (0 ≤ t → t ≤ 1 →
      set_main_taxon_threshold c t = Except.ok { c with mainTaxonThreshold := t }) := by
  constructor
  · intro h
    simp only [set_main_taxon_threshold, if_neg h]
  · intro h0 h1
    simp only [set_main_taxon_threshold, if_pos (And.intro h0 h1)]

/-- Witness for C1 at t = 3/2 (rejected), t = 0 and t = 1 (accepted). -/
theorem claim_C1_threshold_validation_witness :
    set_main_taxon_threshold sampleConfig (3 / 2) =
      Except.error (ConfigError.invalidTaxonThreshold (3 / 2)) ∧
    set_main_taxon_threshold sampleConfig 0 =
      Except.ok { sampleConfig with mainTaxonThreshold := 0 } ∧
    set_main_taxon_threshold sampleConfig 1 =
      Except.ok { sampleConfig with mainTaxonThreshold := 1 } :=
  ⟨(claim_C1_threshold_validation sampleConfig (3 / 2)).1 (by norm_num),
   (claim_C1_threshold_validation sampleConfig 0).2 (by norm_num) (by norm_num),
   (claim_C1_threshold_validation sampleConfig 1).2 (by norm_num) (by norm_num)⟩

/-- C5: for every verification request, if the underlying POST fails with
any transport- or protocol-level error, `GNVerifier.verify` does not
propagate the error: it emits a warning and returns a response object
decoded from the empty mapping (default metadata, empty names list). -/
theorem claim_C5_verify_swallows_transport_errors (msg : String) :
    GNVerifier.verify (PostOutcome.httpError msg) = (true, emptyResponse) ∧
    GNVerifier.verify (PostOutcome.otherFailure msg) = (true, emptyResponse) ∧
    GNVerifierResponse.ofJson [] = some emptyResponse ∧
    emptyResponse.names = [] ∧
    emptyResponse.metadata.names_number = JValue.num 0 ∧
    emptyResponse.metadata.with_stats = JValue.bool false ∧
    emptyResponse.metadata.data_sources = JValue.arr [] ∧
    emptyResponse.metadata.main_taxon_threshold = JValue.num 0 ∧
    emptyResponse.metadata.stats_names_num = JValue.num 0 ∧
    emptyResponse.metadata.main_taxon = JValue.str "N/A" ∧
    emptyResponse.metadata.main_taxon_percentage = JValue.num 0 ∧
    emptyResponse.metadata.kingdom = JValue.str "N/A" ∧
    emptyResponse.metadata.kingdom_percentage = JValue.num 0 ∧
    emptyResponse.metadata.kingdoms = JValue.arr [] :=
  ⟨rfl, rfl, rfl, rfl, rfl, rfl, rfl, rfl, rfl, rfl, rfl, rfl, rfl, rfl⟩

/-- Witness for C5 at a concrete failure message. -/
theorem claim_C5_verify_swallows_transport_errors_witness :
    GNVerifier.verify (PostOutcome.httpError "503 Server Error") =
      (true, emptyResponse) ∧
    GNVerifier.verify (PostOutcome.otherFailure "connection reset") =
      (true, emptyResponse) :=
  ⟨(claim_C5_verify_swallows_transport_errors "503 Server Error").1,
   (claim_C5_verify_swallows_transport_errors "connection reset").2.1⟩

/-- C7: for every transport failure (request exception or error status)
occurring during the catalog fetch, `get_data_sources` propagates the
underlying error to the caller and never returns a successful-looking
empty result. -/
theorem claim_C7_catalog_fetch_error_propagation (err : TransportError) :
    DataSourceClient.get_data_sources (GetOutcome.failure err) =
      Except.error (DataSourcesError.transport err) ∧
    DataSourceClient.get_data_sources (GetOutcome.failure err) ≠ Except.ok [] := by
  refine ⟨rfl, fun h => ?_⟩
  simp [DataSourceClient.get_data_sources, BaseAPI.get_endpoint] at h

/-- Witness for C7 at a concrete request exception. -/
theorem claim_C7_catalog_fetch_error_propagation_witness :
    DataSourceClient.get_data_sources
      (GetOutcome.failure (TransportError.requestException "Server error")) =
      Except.error (DataSourcesError.transport
        (TransportError.requestException "Server error")) ∧
    DataSourceClient.get_data_sources
      (GetOutcome.failure (TransportError.requestException "Server error")) ≠
      Except.ok [] :=
  claim_C7_catalog_fetch_error_propagation (TransportError.requestException "Server error")

/-- C8: the rate limiter loads the persisted last-request timestamp
(a missing store counts as timestamp 0); when less than the 500 ms
minimum interval has elapsed it sleeps for exactly the remainder of the
interval (and otherwise not at all) before recording the new request
time, so consecutive recorded requests are at least 500 ms apart. -/
theorem claim_C8_rate_limiter (store : Option ℚ) (now : ℚ) :
    loadLastRequest none = 0 ∧
    (now - loadLastRequest store < SLEEP_TIME →
      (BaseAPI.auto_sleep store now).1 = SLEEP_TIME - (now - loadLastRequest store)) ∧
    (SLEEP_TIME ≤ now - loadLastRequest store → (BaseAPI.auto_sleep store now).1 = 0) ∧
    (loadLastRequest store ≤ now →
      SLEEP_TIME ≤ (BaseAPI.auto_sleep store now).2 - loadLastRequest store) := by
  refine ⟨rfl, ?_, ?_, ?_⟩
  · intro h
    simp [BaseAPI.auto_sleep, if_pos h]
  · intro h
    simp [BaseAPI.auto_sleep, if_neg (not_lt.mpr h)]
  · intro h
    by_cases hc : now - loadLastRequest store < SLEEP_TIME
    · simp only [BaseAPI.auto_sleep, if_pos hc]
      have : now + (SLEEP_TIME - (now - loadLastRequest store)) - loadLastRequest store =
          SLEEP_TIME := by ring
      rw [this]
    · simp only [BaseAPI.auto_sleep, if_neg hc]
      push_neg at hc
      linarith

/-- Positionwise characterization of `List.zip` lookups. -/
theorem zip_get?_eq {α β : Type} (l1 : List α) (l2 : List β) (i : Nat) :
    (l1.zip l2)[i]? =
      Option.bind l1[i]? fun a => Option.map (fun b => (a, b)) l2[i]? := by
  induction l1 generalizing l2 i with
  | nil => simp
  | cons x xs ih =>
    cases l2 with
    | nil => cases h : (x :: xs)[i]? <;> simp
    | cons y ys =>
      cases i with
      | zero => simp
      | succ n => simpa using ih ys n

/-- C4: the three pipe-delimited classification strings are split into
three equal-length sequences and zipped position-wise into rank-name-id
triples; in particular path "Animalia|Chordata", ranks "kingdom|phylum",
ids "1|2" parse to exactly [(kingdom, Animalia, 1), (phylum, Chordata, 2)]. -/
theorem claim_C4_classification_triples (path ranks ids : String) (i : Nat)
    (rk nm idseg : String)
    (h1 : (splitPipes ranks)[i]? = some rk)
    (h2 : (splitPipes path)[i]? = some nm)
    (h3 : (splitPipes ids)[i]? = some idseg) :
    ((splitPipes ranks).length = (splitPipes path).length →
      (splitPipes ids).length = (splitPipes path).length →
      (parseClassification path ranks ids).length = (splitPipes path).length) ∧
    (parseClassification path ranks ids)[i]? = some (rk, nm, idseg) ∧
    parseClassification "Animalia|Chordata" "kingdom|phylum" "1|2" =
      [("kingdom", "Animalia", "1"), ("phylum", "Chordata", "2")] := by
  refine ⟨?_, ?_, by decide⟩
  · intro e1 e2
    simp [parseClassification, List.length_zip, e1, e2]
  · simp [parseClassification, zip_get?_eq, h1, h2, h3]

/-- Witness for C4 at the concrete example of the claim, position 0. -/
theorem claim_C4_classification_triples_witness :
    (parseClassification "Animalia|Chordata" "kingdom|phylum" "1|2").length =
      (splitPipes "Animalia|Chordata").length ∧
    (parseClassification "Animalia|Chordata" "kingdom|phylum" "1|2")[0]? =
      some ("kingdom", "Animalia", "1") :=
  ⟨(claim_C4_classification_triples "Animalia|Chordata" "kingdom|phylum" "1|2" 0
      "kingdom" "Animalia" "1" (by decide) (by decide) (by decide)).1
        (by decide) (by decide),
   (claim_C4_classification_triples "Animalia|Chordata" "kingdom|phylum" "1|2" 0
      "kingdom" "Animalia" "1" (by decide) (by decide) (by decide)).2.1⟩

/-- `find?` returns the designated element when it occurs in the list,
satisfies the predicate, and is the only element doing so. -/
theorem find?_eq_of_mem_of_unique {α : Type} (p : α → Bool) (l : List α) (a : α)
    (ha : a ∈ l) (hpa : p a = true) (huniq : ∀ b ∈ l, p b = true → b = a) :
    l.find? p = some a := by
  induction l with
  | nil => cases ha
  | cons x xs ih =>
    by_cases hx : p x = true
    · have hxa : x = a := huniq x (List.mem_cons_self x xs) hx
      subst hxa
      simp [List.find?_cons_of_pos _ hx]
    · have hpx : p x = false := Bool.eq_false_iff.mpr hx
      have hxa : x ≠ a := fun h => hx (h ▸ hpa)
      have ha2 : a ∈ xs := by
        rcases List.mem_cons.mp ha with h | h
        · exact absurd h.symm hxa
        · exact h
      rw [List.find?_cons_of_neg _ hx]
      exact ih ha2 fun b hb hpb => huniq b (List.mem_cons_of_mem _ hb) hpb

/-- C2: `include_data_source` accepts any of a catalog entry's four name
forms (full title, short title, normalized argument name, normalized
short argument name), and each resolves to the same numeric ID appended
to the selection set (when the identifier is unambiguous in the catalog);
an identifier matching none of the four forms of any entry fails with the
UnknownDataSource error enumerating every known title. -/
theorem claim_C2_data_source_resolution (c : VerificationRequestConfiguration)
    (e : CatalogEntry) (form ident : String) :
    (e ∈ c.catalog → form ∈ nameForms e →
      (∀ e2 ∈ c.catalog, matchesEntry form e2 = true → e2 = e) →
      include_data_source c form =
        Except.ok { c with dataSources := c.dataSources ++ [e.entry_id] }) ∧
    ((∀ e2 ∈ c.catalog, matchesEntry ident e2 = false) →
      include_data_source c ident =
        Except.error (ConfigError.unknownDataSource ident
          (c.catalog.map CatalogEntry.title))) := by
  constructor
  · intro he hform huniq
    have hmatch : matchesEntry form e = true := by
      simp only [matchesEntry, decide_eq_true_eq]
      exact hform
    have hfind : c.catalog.find? (fun e2 => matchesEntry form e2) = some e :=
      find?_eq_of_mem_of_unique _ _ _ he hmatch huniq
    simp [include_data_source, hfind]
  · intro hnone
    have hfind : c.catalog.find? (fun e2 => matchesEntry ident e2) = none :=
      List.find?_eq_none.mpr fun x hx => by simp [hnone x hx]
    simp [include_data_source, hfind]

/-- Witness for C2: in a two-entry catalog, all four forms of
"Catalogue of Life" resolve to ID 1, and an unknown identifier fails
listing both titles. -/
theorem claim_C2_data_source_resolution_witness :
    include_data_source catalogConfig "Catalogue of Life" =
      Except.ok { catalogConfig with
        dataSources := catalogConfig.dataSources ++ [colEntry.entry_id] } ∧
    include_data_source catalogConfig "COL" =
      Except.ok { catalogConfig with
        dataSources := catalogConfig.dataSources ++ [colEntry.entry_id] } ∧
    include_data_source catalogConfig "catalogue-of-life" =
      Except.ok { catalogConfig with
        dataSources := catalogConfig.dataSources ++ [colEntry.entry_id] } ∧
    include_data_source catalogConfig "col" =
      Except.ok { catalogConfig with
        dataSources := catalogConfig.dataSources ++ [colEntry.entry_id] } ∧
    include_data_source catalogConfig "WoRMS" =
      Except.error (ConfigError.unknownDataSource "WoRMS"
        (catalogConfig.catalog.map CatalogEntry.title)) :=
  ⟨(claim_C2_data_source_resolution catalogConfig colEntry "Catalogue of Life" "x").1
      (by decide) (by decide) (by decide),
   (claim_C2_data_source_resolution catalogConfig colEntry "COL" "x").1
      (by decide) (by decide) (by decide),
   (claim_C2_data_source_resolution catalogConfig colEntry "catalogue-of-life" "x").1
      (by decide) (by decide) (by decide),
   (claim_C2_data_source_resolution catalogConfig colEntry "col" "x").1
      (by decide) (by decide) (by decide),
   (claim_C2_data_source_resolution catalogConfig colEntry "x" "WoRMS").2
      (by decide)⟩

/-- Looking up a metadata key in a `to_dict` output yields the input's
value for that key, with the source's default when the key was absent. -/
theorem jlookup_metadata_to_dict (md : JObj) (key : String) (hk : key ∈ metadataKeys) :
    jlookup (Metadata.to_dict (Metadata.ofJson md)) key =
      some (jget md key (metadataDefault key)) := by
  simp only [metadataKeys, List.mem_cons, List.not_mem_nil, or_false] at hk
  rcases hk with rfl | rfl | rfl | rfl | rfl | rfl | rfl | rfl | rfl | rfl <;>
    simp [Metadata.to_dict, Metadata.ofJson, jlookup, metadataDefault]

/-- A non-metadata key is absent from a `to_dict` output. -/
theorem jlookup_metadata_to_dict_none (md : JObj) (key : String)
    (hk : key ∉ metadataKeys) :
    jlookup (Metadata.to_dict (Metadata.ofJson md)) key = none := by
  simp only [metadataKeys, List.mem_cons, List.not_mem_nil, or_false, not_or] at hk
  obtain ⟨n1, n2, n3, n4, n5, n6, n7, n8, n9, n10⟩ := hk
  simp [Metadata.to_dict, jlookup,
    Ne.symm n1, Ne.symm n2, Ne.symm n3, Ne.symm n4, Ne.symm n5,
    Ne.symm n6, Ne.symm n7, Ne.symm n8, Ne.symm n9, Ne.symm n10]

/-- Looking up a best-result key in the `bestResult` sub-dictionary of a
`to_dict` output yields the input's value for that key, with the source's
default when the key was absent. -/
theorem jlookup_bestresult_to_dict (d br : JObj) (key : String)
    (hk : key ∈ bestResultKeys) :
    jlookup (bestFieldsOf (NameResult.build d br)) key =
      some (jget br key (bestResultDefault key)) := by
  simp only [bestResultKeys, List.mem_cons, List.not_mem_nil, or_false] at hk
  rcases hk with rfl | rfl | rfl | rfl | rfl | rfl | rfl | rfl | rfl | rfl | rfl | rfl |
    rfl | rfl | rfl | rfl | rfl | rfl | rfl | rfl | rfl | rfl | rfl | rfl | rfl | rfl | rfl <;>
    simp [bestFieldsOf, NameResult.to_dict, NameResult.build, jlookup, bestResultDefault]

/-- Witness for C8: a store at 1/4 s with the clock at 1/2 s (elapsed
250 ms, so it sleeps 250 ms), and a store at 0 with the clock at 1 s
(elapsed 1 s, no sleep). -/
theorem claim_C8_rate_limiter_witness :
    (BaseAPI.auto_sleep (some (1 / 4)) (1 / 2)).1 =
      SLEEP_TIME - ((1 / 2 : ℚ) - loadLastRequest (some (1 / 4))) ∧
    (BaseAPI.auto_sleep (some 0) 1).1 = 0 ∧
    SLEEP_TIME ≤ (BaseAPI.auto_sleep (some (1 / 4)) (1 / 2)).2 - loadLastRequest (some (1 / 4)) :=
  ⟨(claim_C8_rate_limiter (some (1 / 4)) (1 / 2)).2.1
      (by norm_num [loadLastRequest, SLEEP_TIME]),
   (claim_C8_rate_limiter (some 0) 1).2.2.1
      (by norm_num [loadLastRequest, SLEEP_TIME]),
   (claim_C8_rate_limiter (some (1 / 4)) (1 / 2)).2.2.2
      (by norm_num [loadLastRequest])⟩

/-- C6 (amended): for every JSON record of the catalog listing that
carries the required "id" key, constructing a DataSource succeeds, and
every optional field missing from the record falls back to its
documented default rather than causing a parse failure. -/
theorem claim_C6_datasource_defaults (d : JObj) (idv : JValue)
    (hid : jlookup d "id" = some idv) :
    ∃ ds : DataSource, DataSource.ofJson d = some ds ∧
      ds.datasource_id = idv ∧
      (jlookup d "uuid" = none → ds.uuid = JValue.str "N/A") ∧
      (jlookup d "title" = none → ds.title = JValue.str "N/A") ∧
      (jlookup d "titleShort" = none → ds.title_short = JValue.str "N/A") ∧
      (jlookup d "version" = none → ds.version = JValue.str "N/A") ∧
      (jlookup d "description" = none →
        ds.description = JValue.str "No description available") ∧
      (jlookup d "homeURL" = none → ds.home_url = JValue.str "N/A") ∧
      (jlookup d "isOutlinkReady" = none → ds.is_outlink_ready = JValue.bool false) ∧
      (jlookup d "curation" = none → ds.curation = JValue.str "Unknown") ∧
      (jlookup d "hasTaxonData" = none → ds.has_taxon_data = JValue.bool false) ∧
      (jlookup d "recordCount" = none → ds.record_count = JValue.num 0) ∧
      (jlookup d "updatedAt" = none → ds.updated_at = JValue.str "N/A") := by
  simp only [DataSource.ofJson, hid]
  refine ⟨_, rfl, rfl, ?_, ?_, ?_, ?_, ?_, ?_, ?_, ?_, ?_, ?_, ?_⟩
  all_goals (intro h; simp [jget, h])

/-- Counterexample for C6 as stated: a record lacking the "id" key does
not construct a DataSource; the comprehension's bare `ds["id"]` fails. -/
theorem claim_C6_counterexample :
    DataSource.ofJson [("title", JValue.str "Catalogue of Life")] = none := rfl

/-- Witness for C6 at a record carrying only "id". -/
theorem claim_C6_datasource_defaults_witness :
    ∃ ds : DataSource, DataSource.ofJson [("id", JValue.num 1)] = some ds ∧
      ds.datasource_id = JValue.num 1 ∧
      (jlookup [("id", JValue.num 1)] "uuid" = none → ds.uuid = JValue.str "N/A") ∧
      (jlookup [("id", JValue.num 1)] "title" = none → ds.title = JValue.str "N/A") ∧
      (jlookup [("id", JValue.num 1)] "titleShort" = none →
        ds.title_short = JValue.str "N/A") ∧
      (jlookup [("id", JValue.num 1)] "version" = none → ds.version = JValue.str "N/A") ∧
      (jlookup [("id", JValue.num 1)] "description" = none →
        ds.description = JValue.str "No description available") ∧
      (jlookup [("id", JValue.num 1)] "homeURL" = none → ds.home_url = JValue.str "N/A") ∧
      (jlookup [("id", JValue.num 1)] "isOutlinkReady" = none →
        ds.is_outlink_ready = JValue.bool false) ∧
      (jlookup [("id", JValue.num 1)] "curation" = none →
        ds.curation = JValue.str "Unknown") ∧
      (jlookup [("id", JValue.num 1)] "hasTaxonData" = none →
        ds.has_taxon_data = JValue.bool false) ∧
      (jlookup [("id", JValue.num 1)] "recordCount" = none →
        ds.record_count = JValue.num 0) ∧
      (jlookup [("id", JValue.num 1)] "updatedAt" = none →
        ds.updated_at = JValue.str "N/A") :=
  claim_C6_datasource_defaults [("id", JValue.num 1)] (JValue.num 1) rfl

/-- C9 (amended): a record with no "bestResult" key constructs with every
best-result field at its documented default, and `to_dict` always emits a
"bestResult" sub-dictionary with the same fixed twenty-seven keys,
independent of which keys the input contained. -/
theorem claim_C9_bestresult_shape (d d2 br2 : JObj)
    (h : jlookup d "bestResult" = none) :
    NameResult.ofJson d = some (NameResult.build d []) ∧
    NameResult.build d [] =
      { input_name := jget d "name" (JValue.str "N/A")
        cardinality := jget d "cardinality" (JValue.num 0)
        match_type := jget d "matchType" (JValue.str "N/A")
        data_source_id := JValue.str "N/A"
        data_source_title := JValue.str "N/A"
        curation := JValue.str "N/A"
        record_id := JValue.str "N/A"
        outlink := JValue.str "N/A"
        entry_date := JValue.str "N/A"
        sort_score := JValue.num 0
        matched_name_id := JValue.str "N/A"
        matched_name := JValue.str "N/A"
        matched_cardinality := JValue.num 0
        matched_canonical_simple := JValue.str "N/A"
        matched_canonical_full := JValue.str "N/A"
        current_record_id := JValue.str "N/A"
        current_name_id := JValue.str "N/A"
        current_name := JValue.str "N/A"
        current_cardinality := JValue.num 0
        current_canonical_simple := JValue.str "N/A"
        current_canonical_full := JValue.str "N/A"
        taxonomic_status := JValue.str "N/A"
        is_synonym := JValue.bool false
        classification_path := JValue.str "N/A"
        classification_ranks := JValue.str "N/A"
        classification_ids := JValue.str "N/A"
        edit_distance := JValue.num 0
        stem_edit_distance := JValue.num 0
        match_type_detail := JValue.str "N/A"
        score_details := JValue.obj [] } ∧
    (NameResult.to_dict (NameResult.build d2 br2)).map Prod.fst =
      ["inputName", "cardinality", "matchType", "bestResult"] ∧
    bestKeysOf (NameResult.to_dict (NameResult.build d2 br2)) = some bestResultKeys ∧
    bestResultKeys.length = 27 := by
  refine ⟨?_, rfl, rfl, rfl, rfl⟩
  simp [NameResult.ofJson, jget, h]

/-- Counterexample for C9 as stated: the emitted `bestResult`
sub-dictionary has twenty-seven keys, not twenty-six. -/
theorem claim_C9_counterexample :
    Option.map List.length (bestKeysOf (NameResult.to_dict (NameResult.build [] []))) ≠
      some 26 := by decide

/-- Witness for C9 at a record with no "bestResult" key. -/
theorem claim_C9_bestresult_shape_witness :
    NameResult.ofJson [("name", JValue.str "Bubo bubo")] =
      some (NameResult.build [("name", JValue.str "Bubo bubo")] []) ∧
    bestKeysOf (NameResult.to_dict (NameResult.build [] [])) = some bestResultKeys :=
  ⟨(claim_C9_bestresult_shape [("name", JValue.str "Bubo bubo")] [] [] rfl).1,
   (claim_C9_bestresult_shape [("name", JValue.str "Bubo bubo")] [] [] rfl).2.2.2.1⟩

/-- C10: for every dictionary whose keys are exactly the ten metadata
keys, the Metadata from-dict/to-dict round trip is the identity (as an
equality of dictionaries, i.e. of lookups at every key). -/
theorem claim_C10_metadata_roundtrip (d : JObj)
    (hkeys : (d.map Prod.fst).Perm metadataKeys) :
    JObjEquiv (Metadata.to_dict (Metadata.ofJson d)) d := by
  intro key
  by_cases hmem : key ∈ metadataKeys
  · have hd : key ∈ d.map Prod.fst := hkeys.mem_iff.mpr hmem
    obtain ⟨v, hv⟩ :=
      Option.isSome_iff_exists.mp ((jlookup_isSome_iff_mem_keys d key).mpr hd)
    rw [jlookup_metadata_to_dict d key hmem, hv, jget_of_lookup_some _ hv]
  · have hd : key ∉ d.map Prod.fst := fun h => hmem (hkeys.mem_iff.mp h)
    have hnone : jlookup d key = none := by
      cases h : jlookup d key with
      | none => rfl
      | some v =>
        exact absurd ((jlookup_isSome_iff_mem_keys d key).mp (by simp [h])) hd
    rw [jlookup_metadata_to_dict_none d key hmem, hnone]

/-- Witness for C10 at a fully-populated metadata record. -/
theorem claim_C10_metadata_roundtrip_witness :
    (sampleMetadataJson.map Prod.fst).Perm metadataKeys ∧
    JObjEquiv (Metadata.to_dict (Metadata.ofJson sampleMetadataJson)) sampleMetadataJson := by
  have hperm : (sampleMetadataJson.map Prod.fst).Perm metadataKeys := by decide
  exact ⟨hperm, claim_C10_metadata_roundtrip sampleMetadataJson hperm⟩

/-- C3 (amended): the Response Model round trip reproduces every field
present in the input — except the name record's top-level "name" field,
re-emitted under the key "inputName" — with documented defaults
substituted only for absent fields. -/
theorem claim_C3_roundtrip_fields (md d br : JObj) (key : String) (v : JValue)
    (r : GNVerifierResponse) :
    (key ∈ metadataKeys → jlookup md key = some v →
      jlookup (Metadata.to_dict (Metadata.ofJson md)) key = some v) ∧
    (key ∈ metadataKeys → jlookup md key = none →
      jlookup (Metadata.to_dict (Metadata.ofJson md)) key = some (metadataDefault key)) ∧
    (jlookup d "name" = some v →
      jlookup (NameResult.to_dict (NameResult.build d br)) "inputName" = some v) ∧
    (jlookup d "cardinality" = some v →
      jlookup (NameResult.to_dict (NameResult.build d br)) "cardinality" = some v) ∧
    (jlookup d "matchType" = some v →
      jlookup (NameResult.to_dict (NameResult.build d br)) "matchType" = some v) ∧
    (key ∈ bestResultKeys → jlookup br key = some v →
      jlookup (bestFieldsOf (NameResult.build d br)) key = some v) ∧
    (key ∈ bestResultKeys → jlookup br key = none →
      jlookup (bestFieldsOf (NameResult.build d br)) key = some (bestResultDefault key)) ∧
    jlookup (GNVerifierResponse.export_dict r) "metadata" =
      some (JValue.obj (Metadata.to_dict r.metadata)) ∧
    jlookup (GNVerifierResponse.export_dict r) "names" =
      some (JValue.arr (r.names.map fun n => JValue.obj (NameResult.to_dict n))) := by
  refine ⟨?_, ?_, ?_, ?_, ?_, ?_, ?_, rfl, rfl⟩
  · intro hk hv
    rw [jlookup_metadata_to_dict md key hk, jget_of_lookup_some _ hv]
  · intro hk hv
    rw [jlookup_metadata_to_dict md key hk, jget_of_lookup_none _ hv]
  · intro hv
    simp [NameResult.to_dict, NameResult.build, jlookup, jget, hv]
  · intro hv
    simp [NameResult.to_dict, NameResult.build, jlookup, jget, hv]
  · intro hv
    simp [NameResult.to_dict, NameResult.build, jlookup, jget, hv]
  · intro hk hv
    rw [jlookup_bestresult_to_dict d br key hk, jget_of_lookup_some _ hv]
  · intro hk hv
    rw [jlookup_bestresult_to_dict d br key hk, jget_of_lookup_none _ hv]

/-- Counterexample for C3 as stated: an input name record carrying the
field "name" round-trips to a dictionary with no "name" field at all
(the value reappears under "inputName"). -/
theorem claim_C3_counterexample :
    NameResult.ofJson [("name", JValue.str "Pomatomus saltatrix")] =
      some (NameResult.build [("name", JValue.str "Pomatomus saltatrix")] []) ∧
    jlookup (NameResult.to_dict
      (NameResult.build [("name", JValue.str "Pomatomus saltatrix")] [])) "name" =
      none ∧
    jlookup (NameResult.to_dict
      (NameResult.build [("name", JValue.str "Pomatomus saltatrix")] [])) "inputName" =
      some (JValue.str "Pomatomus saltatrix") :=
  ⟨rfl, rfl, rfl⟩

/-- Witness for C3: a present metadata field, an absent metadata field,
the renamed name field, and a present and an absent best-result field. -/
theorem claim_C3_roundtrip_fields_witness :
    jlookup (Metadata.to_dict (Metadata.ofJson sampleMetadataJson)) "kingdom" =
      some (JValue.str "Animalia") ∧
    jlookup (Metadata.to_dict (Metadata.ofJson [])) "kingdom" =
      some (metadataDefault "kingdom") ∧
    jlookup (NameResult.to_dict (NameResult.build
      [("name", JValue.str "Pomatomus saltatrix")] [])) "inputName" =
      some (JValue.str "Pomatomus saltatrix") ∧
    jlookup (bestFieldsOf (NameResult.build []
      [("curation", JValue.str "Curated")])) "curation" =
      some (JValue.str "Curated") ∧
    jlookup (bestFieldsOf (NameResult.build [] [])) "curation" =
      some (bestResultDefault "curation") :=
  ⟨(claim_C3_roundtrip_fields sampleMetadataJson [] [] "kingdom"
      (JValue.str "Animalia") emptyResponse).1 (by decide) rfl,
   (claim_C3_roundtrip_fields [] [] [] "kingdom"
      (JValue.str "Animalia") emptyResponse).2.1 (by decide) rfl,
   (claim_C3_roundtrip_fields [] [("name", JValue.str "Pomatomus saltatrix")] []
      "kingdom" (JValue.str "Pomatomus saltatrix") emptyResponse).2.2.1 rfl,
   (claim_C3_roundtrip_fields [] [] [("curation", JValue.str "Curated")]
      "curation" (JValue.str "Curated") emptyResponse).2.2.2.2.2.1 (by decide) rfl,
   (claim_C3_roundtrip_fields [] [] [] "curation"
      (JValue.str "Curated") emptyResponse).2.2.2.2.2.2.1 (by decide) rfl⟩
